import Mathlib

/-!
Shallow embedding of the Sorna manager (src/sorna/manager.py) and the
gateway event dispatcher (src/sorna/gateway/events.py).

Python dictionaries are modelled as association lists (`List (String × α)`),
which fixes a deterministic iteration order; Python sets of ports are
modelled as `List Nat` (the code never inserts a duplicate).  Mutable
`Instance` objects shared between the instance registry and `Kernel`
records are modelled by storing the instance's registry key in the kernel
and routing every mutation through the registry, which is faithful because
instance records are created at startup and never removed or re-keyed.
Python exceptions are modelled by an explicit result type `PyResult` that
keeps the state reached at the moment the exception is raised, since
registry mutations performed before a `raise` persist.
-/

/-- Python exception kinds that the embedded code can raise. -/
inductive Err where
  | assertionError
  | nameError (name : String)
  | keyError
  | attributeError
  | notImplErr
deriving DecidableEq, Repr

/-- Result of running a statefully-embedded Python routine: either a normal
return value with the final state, or an exception together with the state
at the raise site (mutations made before the raise persist). -/
inductive PyResult (α : Type) (σ : Type) where
  | ok (a : α) (s : σ)
  | exn (e : Err) (s : σ)
deriving DecidableEq, Repr

/-- State reached by a `PyResult`, whether it returned or raised. -/
def PyResult.state : PyResult α σ → σ
  | .ok _ s => s
  | .exn _ s => s

/-- Dictionary lookup on an association list (Python `d[k]` / `k in d`). -/
def dlookup : List (String × α) → String → Option α
  | [], _ => none
  | (k, v) :: rest, key => if k = key then some v else dlookup rest key

/-- Dictionary assignment `d[k] = v`: replaces in place if the key exists,
otherwise appends (Python dicts keep insertion order). -/
def dinsert : List (String × α) → String → α → List (String × α)
  | [], key, v => [(key, v)]
  | (k, w) :: rest, key, v =>
      if k = key then (k, v) :: rest else (k, w) :: dinsert rest key v

/-- Dictionary deletion `del d[k]`: removes the first binding of the key. -/
def derase : List (String × α) → String → List (String × α)
  | [], _ => []
  | (k, w) :: rest, key => if k = key then rest else (k, w) :: derase rest key

/-- `KernelDriverTypes = Enum('KernelDriverTypes', 'local docker')`.
(`local` is a Lean keyword, so the local-driver tag is `localDriver`.) -/
inductive KernelDriverTypes where
  | localDriver
  | docker
deriving DecidableEq, Repr

/-- `AgentPortRange = tuple(range(5002, 5010))`. -/
def AgentPortRange : List Nat := List.range' 5002 8

/-- The `Instance` namedlist.  `cur_kernels` and `max_kernels` are Python
ints, embedded as `Int`; `used_ports` starts as `None` and is lazily
initialised to a set by `create_kernel`. -/
structure Instance where
  ip : String
  docker_port : Int := 2375
  tag : String := ""
  max_kernels : Int := 2
  cur_kernels : Int := 0
  used_ports : Option (List Nat) := none
deriving DecidableEq, Repr

/-- Driver-private handle stored in `Kernel.priv`: `None` initially, the
container id string for the docker driver, the child-process handle for
the local driver. -/
inductive Priv where
  | nullPriv
  | containerHandle (cid : String)
  | procHandle
deriving DecidableEq, Repr

/-- The `Kernel` namedlist.  `instanceKey` stands for the Python reference
to the owning `Instance` object (see the header comment). -/
structure Kernel where
  instanceKey : String
  kernel_id : String
  spec : String := "python34"
  agent_sock : String := ""
  stdin_sock : Option String := none
  stdout_sock : Option String := none
  stderr_sock : Option String := none
  priv : Priv := .nullPriv
deriving DecidableEq, Repr

/-- The module-level mutable registries of `sorna.manager`. -/
structure ManagerState where
  instance_registry : List (String × Instance)
  kernel_registry : List (String × Kernel)
deriving DecidableEq, Repr

/-- The characters after the last colon of a string, if any colon occurs. -/
def afterLastColon : List Char → Option (List Char)
  | [] => none
  | c :: rest =>
    match afterLastColon rest with
    | some suffix => some suffix
    | none => if c = ':' then some rest else none

/-- Decimal digit-string to number (helper for `urlparsePort`). -/
def digitsToNatAux : List Char → Nat → Option Nat
  | [], acc => some acc
  | c :: rest, acc =>
      if c.isDigit then digitsToNatAux rest (acc * 10 + (c.toNat - 48)) else none

/-- A non-empty all-digit character list read as a decimal number. -/
def digitsToNat : List Char → Option Nat
  | [] => none
  | cs => digitsToNatAux cs 0

/-- `urlparse(agent_sock).port` for the `tcp://host:port` strings the
manager builds: the decimal digits after the last colon (`None` when no
colon or no numeric port is present, as `urlparse` yields). -/
def urlparsePort (s : String) : Option Nat :=
  match afterLastColon s.data with
  | some cs => digitsToNat cs
  | none => none

/-- The port-reservation loop shared by both `create_kernel` variants:
`agent_port = 0; for p in AgentPortRange: if p not in used_ports:
used_ports.add(p); agent_port = p; break`.  Returns the reserved port
(0 when every port of the scanned range is occupied) and the updated
occupied-port set. -/
def pickPortLoop : List Nat → List Nat → Nat × List Nat
  | [], used => (0, used)
  | p :: ps, used =>
      if used.contains p then pickPortLoop ps used else (p, p :: used)

/-- The readiness-probe loop of `handle_api`'s CREATE path, started at a
given `tries` counter: `while tries < 5: success = ping_kernel(...);
if success: break; else: sleep(1); tries += 1; else: ...`.
`pings i` is the outcome of the probe made when `tries = i`.  The loop
guard `tries < 5` is carried structurally as `fuel = 5 - tries` (the
guard holds exactly when `fuel > 0`; `tries` goes up by one whenever
`fuel` goes down by one).  Returns (loop exited via `break`, number of
pings issued, number of 1 s sleeps). -/
def probeWhile (pings : Nat → Bool) (tries : Nat) : Nat → Bool × Nat × Nat
  | 0 => (false, 0, 0)
  | fuel + 1 =>
      if pings tries then (true, 1, 0)
      else
        let r := probeWhile pings (tries + 1) fuel
        (r.1, r.2.1 + 1, r.2.2 + 1)

/-- The probe loop as `handle_api` enters it: `tries = 0`, guard `tries < 5`. -/
def probeKernel (pings : Nat → Bool) : Bool × Nat × Nat := probeWhile pings 0 5

/- ----------------------------------------------------------------------
Event dispatcher (src/sorna/gateway/events.py).
---------------------------------------------------------------------- -/

/-- A registered handler: `coroutineFn` stands for a callback for which
`asyncio.iscoroutinefunction` holds, `plainFn` for an ordinary callable
(both coroutine checks false).  The `fid` is the identity of the Python
callback object. -/
inductive Handler where
  | coroutineFn (fid : Nat)
  | plainFn (fid : Nat)
deriving DecidableEq, Repr

/-- A scheduling action performed by `EventDispatcher.dispatch`:
`loop.create_task(handler(...))` on the coroutine branch. -/
inductive Scheduled where
  | createdTask (fid : Nat)
deriving DecidableEq, Repr

/-- The `for handler in self.handlers[event_name]` loop of
`EventDispatcher.dispatch`.  On the non-coroutine branch the code
evaluates `functools.partial(...)`, but `functools` is never imported in
events.py, so that branch raises `NameError` and the loop aborts; tasks
created for earlier handlers have already been scheduled. -/
def dispatchHandlers : List Handler → List Scheduled × Option Err
  | [] => ([], none)
  | .coroutineFn f :: rest =>
      let r := dispatchHandlers rest
      (Scheduled.createdTask f :: r.1, r.2)
  | .plainFn _ :: _ => ([], some (Err.nameError "functools"))

/-- `EventDispatcher.handlers` is a `defaultdict(list)`: a missing event
name yields the empty handler list. -/
def handlersFor (table : List (String × List Handler)) (event_name : String) :
    List Handler :=
  (dlookup table event_name).getD []

/-- `EventDispatcher.dispatch(event_name, ...)`: run the handler loop on
the handler chain registered for the event name. -/
def dispatch (table : List (String × List Handler)) (event_name : String) :
    List Scheduled × Option Err :=
  dispatchHandlers (handlersFor table event_name)

/-- `EventDispatcher.add_handler`: append the callback to the event's
chain (creating the chain, as the defaultdict does, when absent). -/
def add_handler (table : List (String × List Handler)) (event_name : String)
    (callback : Handler) : List (String × List Handler) :=
  dinsert table event_name (handlersFor table event_name ++ [callback])

/- ----------------------------------------------------------------------
Kernel drivers (src/sorna/manager.py).
---------------------------------------------------------------------- -/

/-- The availability filter of `find_avail_instance`: the docker variant
accepts any instance with `cur_kernels < max_kernels`; the local variant
additionally skips (`continue`) instances whose ip is not 127.0.0.1. -/
def availFilter (drv : KernelDriverTypes) (i : Instance) : Bool :=
  match drv with
  | .docker => decide (i.cur_kernels < i.max_kernels)
  | .localDriver => i.ip == "127.0.0.1" && decide (i.cur_kernels < i.max_kernels)

/-- The `for instance in instance_registry.values()` loop of both
`find_avail_instance` variants (they differ only in the filter): the
first instance passing the filter gets `cur_kernels += 1` and is
returned; otherwise the loop falls through to `return None`. -/
def findAvailAux (ok : Instance → Bool) :
    List (String × Instance) → Option String × List (String × Instance)
  | [] => (none, [])
  | (k, i) :: rest =>
      if ok i then (some k, (k, { i with cur_kernels := i.cur_kernels + 1 }) :: rest)
      else
        let r := findAvailAux ok rest
        (r.1, (k, i) :: r.2)

/-- `find_avail_instance` of the selected driver, acting on the module
state; returns the chosen instance (by registry key) or `none`. -/
def find_avail_instance (drv : KernelDriverTypes) (st : ManagerState) :
    Option String × ManagerState :=
  let r := findAvailAux (availFilter drv) st.instance_registry
  (r.1, { st with instance_registry := r.2 })

/-- `'tcp://{0}:{1}'.format(ip, port)`. -/
def tcpSock (ip : String) (port : Nat) : String :=
  "tcp://" ++ ip ++ ":" ++ toString port

/-- `DockerKernelDriver.create_kernel(instance)`.  `containerId` is the id
of the container created by the external docker client (line 141).  The
function lazily initialises `used_ports`, asserts
`max_kernels <= len(AgentPortRange)`, reserves the first free port of the
range (asserting it found one), builds the `Kernel` record with
`kernel_id = 'docker-{ip}/{container.id}'` and
`agent_sock = 'tcp://{ip}:{agent_port}'`, stores it in `kernel_registry`
— and then executes `return kernel_id`, where the name `kernel_id` is
unbound in this function (and not a module global), so it raises
`NameError` after the registry write (spec §9 notes this). -/
def dockerCreate_kernel (instKey : String) (containerId : String)
    (st : ManagerState) : PyResult String ManagerState :=
  match dlookup st.instance_registry instKey with
  | none => .exn .keyError st
  | some i =>
    let ups := i.used_ports.getD []
    let i0 : Instance := { i with used_ports := some ups }
    let st0 : ManagerState :=
      { st with instance_registry := dinsert st.instance_registry instKey i0 }
    if i0.max_kernels ≤ (AgentPortRange.length : Int) then
      let pr := pickPortLoop AgentPortRange ups
      let i1 : Instance := { i0 with used_ports := some pr.2 }
      let st1 : ManagerState :=
        { st0 with instance_registry := dinsert st0.instance_registry instKey i1 }
      if pr.1 ≠ 0 then
        let kid := "docker-" ++ i0.ip ++ "/" ++ containerId
        let kernel : Kernel :=
          { instanceKey := instKey, kernel_id := kid,
            agent_sock := tcpSock i0.ip pr.1, priv := .containerHandle containerId }
        let st2 : ManagerState :=
          { st1 with kernel_registry := dinsert st1.kernel_registry kid kernel }
        .exn (.nameError "kernel_id") st2
      else .exn .assertionError st1
    else .exn .assertionError st0

/-- `LocalKernelDriver.create_kernel(instance)`.  `uniqueId` is the fresh
`str(uuid.uuid4())`.  Same port reservation as the docker variant but the
capacity assertion is strict (`max_kernels < len(AgentPortRange)`); the
kernel id is `'local/{uuid}'`, the child process is spawned externally,
and the function returns the kernel id normally. -/
def localCreate_kernel (instKey : String) (uniqueId : String)
    (st : ManagerState) : PyResult String ManagerState :=
  match dlookup st.instance_registry instKey with
  | none => .exn .keyError st
  | some i =>
    let ups := i.used_ports.getD []
    let i0 : Instance := { i with used_ports := some ups }
    let st0 : ManagerState :=
      { st with instance_registry := dinsert st.instance_registry instKey i0 }
    if i0.max_kernels < (AgentPortRange.length : Int) then
      let pr := pickPortLoop AgentPortRange ups
      let i1 : Instance := { i0 with used_ports := some pr.2 }
      let st1 : ManagerState :=
        { st0 with instance_registry := dinsert st0.instance_registry instKey i1 }
      if pr.1 ≠ 0 then
        let kid := "local/" ++ uniqueId
        let kernel : Kernel :=
          { instanceKey := instKey, kernel_id := kid,
            agent_sock := tcpSock i0.ip pr.1, priv := .procHandle }
        let st2 : ManagerState :=
          { st1 with kernel_registry := dinsert st1.kernel_registry kid kernel }
        .ok kid st2
      else .exn .assertionError st1
    else .exn .assertionError st0

/-- `create_kernel` of the selected driver. -/
def create_kernel (drv : KernelDriverTypes) (instKey : String)
    (freshId : String) (st : ManagerState) : PyResult String ManagerState :=
  match drv with
  | .docker => dockerCreate_kernel instKey freshId st
  | .localDriver => localCreate_kernel instKey freshId st

/-- The common body of both `destroy_kernel` variants, lines 152–159 resp.
200–209: look the kernel up, decrement the owning instance's
`cur_kernels`, assert it stayed non-negative, drop the agent port parsed
from `agent_sock` out of `used_ports` (a Python `set.remove`, which
raises `KeyError` when the element is absent), and delete the registry
entry.  The local variant additionally terminates and waits for the
child process, which has no registry effect.  The `keyError` fallbacks on
the instance lookup and the `attributeError` on a `None` port set mirror
failures that cannot occur in states reachable through `create_kernel`. -/
def destroyKernelBody (kernel_id : String) (st : ManagerState) :
    PyResult Unit ManagerState :=
  match dlookup st.kernel_registry kernel_id with
  | none => .exn .keyError st
  | some kernel =>
    match dlookup st.instance_registry kernel.instanceKey with
    | none => .exn .keyError st
    | some i =>
      let i1 : Instance := { i with cur_kernels := i.cur_kernels - 1 }
      let st1 : ManagerState :=
        { st with instance_registry := dinsert st.instance_registry kernel.instanceKey i1 }
      if i1.cur_kernels ≥ 0 then
        match urlparsePort kernel.agent_sock with
        | none => .exn .keyError st1
        | some port =>
          match i1.used_ports with
          | none => .exn .attributeError st1
          | some ups =>
            if ups.contains port then
              let i2 : Instance := { i1 with used_ports := some (ups.filter (fun q => q ≠ port)) }
              let st2 : ManagerState :=
                { st1 with instance_registry := dinsert st1.instance_registry kernel.instanceKey i2 }
              .ok () { st2 with kernel_registry := derase st2.kernel_registry kernel_id }
            else .exn .keyError st1
      else .exn .assertionError st1

/-- `destroy_kernel` of the selected driver.  The docker variant performs
the same registry updates and then hits the trailing
`raise NotImplementedError()` (line 160, after `del kernel_registry[...]`
on line 159), so it never returns normally; the local variant returns. -/
def destroy_kernel (drv : KernelDriverTypes) (kernel_id : String)
    (st : ManagerState) : PyResult Unit ManagerState :=
  match drv with
  | .localDriver => destroyKernelBody kernel_id st
  | .docker =>
    match destroyKernelBody kernel_id st with
    | .ok _ st' => .exn .notImplErr st'
    | .exn e st' => .exn e st'

/- ----------------------------------------------------------------------
Request handling (handle_api, src/sorna/manager.py lines 223–299).
---------------------------------------------------------------------- -/

/-- `ManagerRequest.action` values handled by `handle_api`. -/
inductive MAction where
  | PING
  | CREATE
  | DESTROY
deriving DecidableEq, Repr

/-- `ManagerResponse.reply` values. -/
inductive MReply where
  | PONG
  | SUCCESS
  | INVALID_INPUT
  | FAILURE
deriving DecidableEq, Repr

/-- A decoded `ManagerRequest`. -/
structure MRequest where
  action : MAction
  kernel_id : String := ""
  body : String := ""
deriving DecidableEq, Repr

/-- A `ManagerResponse` as filled in by `handle_api`. -/
structure MResponse where
  reply : MReply
  kernel_id : String
  body : String
deriving DecidableEq, Repr

/-- Environmental inputs consumed while serving one CREATE request: the
fresh local id drawn for the kernel (container id or uuid4), the outcome
of each readiness probe, and the socket-info record the agent answers
with. -/
structure CreateEnv where
  freshId : String
  pings : Nat → Bool
  sockStdin : Option String := none
  sockStdout : Option String := none
  sockStderr : Option String := none

/-- `KernelDriver.get_socket_info(kernel_id)`: query the agent (the reply
is `env`'s socket-info record) and store the three endpoint addresses
into the kernel record. -/
def get_socket_info (kernel_id : String) (env : CreateEnv) (st : ManagerState) :
    PyResult Unit ManagerState :=
  match dlookup st.kernel_registry kernel_id with
  | none => .exn .keyError st
  | some kernel =>
    let kernel1 : Kernel :=
      { kernel with stdin_sock := env.sockStdin, stdout_sock := env.sockStdout,
                    stderr_sock := env.sockStderr }
    .ok () { st with kernel_registry := dinsert st.kernel_registry kernel_id kernel1 }

/-- `json.dumps({'agent_sock': ..., 'stdin_sock': None, 'stdout_sock': ...,
'stderr_sock': ...})` of the SUCCESS reply to CREATE (stdin is hardcoded
to null there). -/
def jsonStr : Option String → String
  | none => "null"
  | some s => "\"" ++ s ++ "\""

/-- Rendering of the CREATE SUCCESS response body. -/
def successBody (k : Kernel) : String :=
  "\x7b\"agent_sock\": " ++ jsonStr (some k.agent_sock) ++
  ", \"stdin_sock\": null, \"stdout_sock\": " ++ jsonStr k.stdout_sock ++
  ", \"stderr_sock\": " ++ jsonStr k.stderr_sock ++ "\x7d"

/-- Outcome of one iteration of `handle_api`'s `while True` loop on one
request: a response written with the loop continuing, a response written
followed by `return` (the two CREATE failure paths), or an exception
propagating out of the coroutine (no response written). -/
inductive StepOutcome where
  | reply (resp : MResponse) (st : ManagerState)
  | replyStop (resp : MResponse) (st : ManagerState)
  | crash (e : Err) (st : ManagerState)
deriving DecidableEq, Repr

/-- One iteration of `handle_api` serving one decoded request `req` with
the configured driver `drv`, from module state `st`.  Mirrors lines
238–299: the PING echo; the CREATE path (placement, kernel creation, the
200 ms grace sleep, the probe loop, socket-info fetch, SUCCESS reply) with
its two FAILURE-then-`return` branches; the DESTROY path guarded by the
registry membership test. -/
def handleRequest (drv : KernelDriverTypes) (env : CreateEnv) (req : MRequest)
    (st : ManagerState) : StepOutcome :=
  match req.action with
  | .PING => .reply ⟨.PONG, "", req.body⟩ st
  | .CREATE =>
    match find_avail_instance drv st with
    | (none, st1) =>
        .replyStop ⟨.FAILURE, "", "No instance is available to launch a new kernel."⟩ st1
    | (some instKey, st1) =>
      match create_kernel drv instKey env.freshId st1 with
      | .exn e st2 => .crash e st2
      | .ok kernel_id st2 =>
        if (probeKernel env.pings).1 then
          match get_socket_info kernel_id env st2 with
          | .exn e st3 => .crash e st3
          | .ok _ st3 =>
            match dlookup st3.kernel_registry kernel_id with
            | none => .crash .keyError st3
            | some kernel => .reply ⟨.SUCCESS, kernel_id, successBody kernel⟩ st3
        else
          .replyStop ⟨.FAILURE, "", "The created kernel did not respond!"⟩ st2
  | .DESTROY =>
    if (dlookup st.kernel_registry req.kernel_id).isSome then
      match destroy_kernel drv req.kernel_id st with
      | .ok _ st2 => .reply ⟨.SUCCESS, req.kernel_id, ""⟩ st2
      | .exn e st2 => .crash e st2
    else
      .reply ⟨.INVALID_INPUT, "", "No such kernel."⟩ st

/-- The `while True` loop of `handle_api` over a finite stream of incoming
requests (`envs i` supplies the environmental inputs consumed while
serving request number `i`).  A `reply` outcome loops; a `replyStop`
outcome (`server.write` followed by `return`) ends the coroutine, leaving
later requests unread; a `crash` ends it with no response written. -/
def handleApi (drv : KernelDriverTypes) (envs : Nat → CreateEnv) (i : Nat) :
    List MRequest → ManagerState → List MResponse × ManagerState
  | [], st => ([], st)
  | req :: rest, st =>
    match handleRequest drv (envs i) req st with
    | .reply resp st' =>
        let r := handleApi drv envs (i + 1) rest st'
        (resp :: r.1, r.2)
    | .replyStop resp st' => ([resp], st')
    | .crash _ st' => ([], st')

/- ----------------------------------------------------------------------
Concrete fixtures used by the theorems below.
---------------------------------------------------------------------- -/

/-- The module-startup state, lines 215–218:
`instance_registry = {'test': Instance(ip='127.0.0.1')}`,
`kernel_registry = dict()`. -/
def initState : ManagerState :=
  { instance_registry := [("test", { ip := "127.0.0.1" })], kernel_registry := [] }

/-- A CREATE environment in which every readiness probe times out. -/
def noPingEnv : CreateEnv := { freshId := "u0", pings := fun _ => false }

/-- The state `initState` reaches after a local-driver CREATE whose probes
all failed: the placement increment, the port reservation and the kernel
record are all still present. -/
def leakedState : ManagerState :=
  { instance_registry :=
      [("test", { ip := "127.0.0.1", cur_kernels := 1, used_ports := some [5002] })],
    kernel_registry :=
      [("local/u0",
        { instanceKey := "test", kernel_id := "local/u0",
          agent_sock := "tcp://127.0.0.1:5002", priv := .procHandle })] }

/-- A state holding one docker-driver kernel on instance `test`. -/
def dockerOneState : ManagerState :=
  { instance_registry :=
      [("test", { ip := "127.0.0.1", cur_kernels := 1, used_ports := some [5002] })],
    kernel_registry :=
      [("docker-127.0.0.1/c0",
        { instanceKey := "test", kernel_id := "docker-127.0.0.1/c0",
          agent_sock := "tcp://127.0.0.1:5002", priv := .containerHandle "c0" })] }

/-- A state holding one local-driver kernel on instance `test`. -/
def localOneState : ManagerState :=
  { instance_registry :=
      [("test", { ip := "127.0.0.1", cur_kernels := 1, used_ports := some [5002] })],
    kernel_registry :=
      [("local/u0",
        { instanceKey := "test", kernel_id := "local/u0",
          agent_sock := "tcp://127.0.0.1:5002", priv := .procHandle })] }

/-- A state whose only instance is at capacity (`cur_kernels = max_kernels`). -/
def fullState : ManagerState :=
  { instance_registry :=
      [("test", { ip := "127.0.0.1", cur_kernels := 2, max_kernels := 2 })],
    kernel_registry := [] }

/-- The kernel-registry keying invariant: every entry's dictionary key is
the `kernel_id` field of the record it stores. -/
def KeysMatch (st : ManagerState) : Prop :=
  ∀ e ∈ st.kernel_registry, e.1 = e.2.kernel_id

/-- A state whose instance has `max_kernels` equal to the full size of the
agent port range (8) and all but one port occupied: about to place its
`max_kernels`-th kernel. -/
def cap8State : ManagerState :=
  { instance_registry :=
      [("test", { ip := "127.0.0.1", max_kernels := 8, cur_kernels := 8,
                  used_ports := some [5002, 5003, 5004, 5005, 5006, 5007, 5008] })],
    kernel_registry := [] }

/- ----------------------------------------------------------------------
Theorems.
---------------------------------------------------------------------- -/

/-- C1.  The claim requires that after 5 failed probes the CREATE path
destroy the partially created kernel (remove it from the registry,
release its agent port, restore `cur_kernels`).  The code does reply
FAILURE with the claimed body, but then merely executes `return`: at the
concrete failing input (local driver, the startup state, every ping
timing out) the kernel record is still registered, port 5002 is still
occupied and `cur_kernels` is still 1, not the pre-CREATE 0. -/
theorem c1_probe_failure_leaves_partial_kernel :
    handleRequest .localDriver noPingEnv { action := .CREATE } initState =
      .replyStop ⟨.FAILURE, "", "The created kernel did not respond!"⟩ leakedState ∧
    dlookup leakedState.kernel_registry "local/u0" ≠ none ∧
    (dlookup leakedState.instance_registry "test").map Instance.cur_kernels = some 1 ∧
    (dlookup leakedState.instance_registry "test").map Instance.used_ports =
      some (some [5002]) ∧
    (dlookup initState.instance_registry "test").map Instance.cur_kernels = some 0 := by
  refine ⟨by decide, by decide, by decide, by decide, by decide⟩

/-- C2.  The claim says DESTROY on a registered kernel id replies SUCCESS
for both driver variants.  The local variant does (second conjunct, with
the record gone, the port released and `cur_kernels` back to 0).  The
docker variant performs the same registry updates but then hits the
trailing `raise NotImplementedError()` of `destroy_kernel` (line 160),
so the coroutine crashes and no SUCCESS reply is ever written (first
conjunct). -/
theorem c2_destroy_docker_raises_local_succeeds :
    handleRequest .docker noPingEnv
        { action := .DESTROY, kernel_id := "docker-127.0.0.1/c0" } dockerOneState =
      .crash .notImplErr
        { instance_registry :=
            [("test", { ip := "127.0.0.1", cur_kernels := 0, used_ports := some [] })],
          kernel_registry := [] } ∧
    handleRequest .localDriver noPingEnv
        { action := .DESTROY, kernel_id := "local/u0" } localOneState =
      .reply ⟨.SUCCESS, "local/u0", ""⟩
        { instance_registry :=
            [("test", { ip := "127.0.0.1", cur_kernels := 0, used_ports := some [] })],
          kernel_registry := [] } := by
  refine ⟨by decide, by decide⟩

/-- C3.  The claim says both `create_kernel` variants write the kernel
record and return its id.  The local variant does (second conjunct).  The
docker variant writes the record under `docker-127.0.0.1/c0` and then
executes `return kernel_id` where `kernel_id` is an unbound name, so it
raises `NameError` instead of returning the id (first conjunct). -/
theorem c3_docker_create_returns_unbound_name :
    dockerCreate_kernel "test" "c0" initState =
      .exn (.nameError "kernel_id")
        { instance_registry :=
            [("test", { ip := "127.0.0.1", used_ports := some [5002] })],
          kernel_registry :=
            [("docker-127.0.0.1/c0",
              { instanceKey := "test", kernel_id := "docker-127.0.0.1/c0",
                agent_sock := "tcp://127.0.0.1:5002",
                priv := .containerHandle "c0" })] } ∧
    localCreate_kernel "test" "u0" initState =
      .ok "local/u0"
        { instance_registry :=
            [("test", { ip := "127.0.0.1", used_ports := some [5002] })],
          kernel_registry :=
            [("local/u0",
              { instanceKey := "test", kernel_id := "local/u0",
                agent_sock := "tcp://127.0.0.1:5002", priv := .procHandle })] } := by
  refine ⟨by decide, by decide⟩

/-- C4.  The claim says immediate (non-coroutine) handlers are scheduled
for prompt execution without blocking the subscriber.  In the code that
branch evaluates `functools.partial(...)` but events.py never imports
`functools`, so dispatching to a plain-function handler raises
`NameError` (first conjunct).  The parts of the claim the code does
satisfy: an event name with no registered handlers is dropped without an
error (second conjunct), and coroutine handlers are scheduled as
independent tasks in registration order (third conjunct, for the chain
built by two `add_handler` calls). -/
theorem c4_dispatch_plain_handler_raises_name_error :
    dispatch [("kernel_terminated", [Handler.plainFn 0])] "kernel_terminated" =
      ([], some (Err.nameError "functools")) ∧
    dispatch [("kernel_terminated", [Handler.plainFn 0])] "instance_heartbeat" =
      ([], none) ∧
    dispatch (add_handler (add_handler [] "instance_heartbeat" (Handler.coroutineFn 1))
        "instance_heartbeat" (Handler.coroutineFn 2)) "instance_heartbeat" =
      ([Scheduled.createdTask 1, Scheduled.createdTask 2], none) := by
  refine ⟨by decide, by decide, by decide⟩

/-- Issuing fewer pings than fuel: the loop makes at most `fuel` probes. -/
theorem probeWhile_ping_le (pings : Nat → Bool) :
    ∀ (fuel tries : Nat), (probeWhile pings tries fuel).2.1 ≤ fuel := by
  intro fuel
  induction fuel with
  | zero => intro t; simp [probeWhile]
  | succ n ih =>
    intro t
    by_cases h : pings t
    · simp [probeWhile, h]
    · have := ih (t + 1)
      simp only [probeWhile, h, if_neg, Bool.false_eq_true, if_false]
      omega

/-- If every probe in the window fails, the loop exhausts its fuel:
`fuel` pings, `fuel` sleeps, no `break`. -/
theorem probeWhile_all_fail (pings : Nat → Bool) :
    ∀ (fuel tries : Nat), (∀ j, tries ≤ j → j < tries + fuel → pings j = false) →
      probeWhile pings tries fuel = (false, fuel, fuel) := by
  intro fuel
  induction fuel with
  | zero => intro t _; rfl
  | succ n ih =>
    intro t h
    have ht : pings t = false := h t (Nat.le_refl t) (by omega)
    have hrec := ih (t + 1) (fun j h1 h2 => h j (by omega) (by omega))
    simp [probeWhile, ht, hrec]

/-- If the probe at attempt `k` is the first to succeed, the loop breaks
there: `k + 1 - tries` pings and `k - tries` sleeps from start `tries`. -/
theorem probeWhile_first_success (pings : Nat → Bool) :
    ∀ (fuel tries k : Nat), tries ≤ k → k < tries + fuel → pings k = true →
      (∀ j, tries ≤ j → j < k → pings j = false) →
      probeWhile pings tries fuel = (true, k + 1 - tries, k - tries) := by
  intro fuel
  induction fuel with
  | zero => intro t k h1 h2 _ _; omega
  | succ n ih =>
    intro t k h1 h2 hk hfail
    rcases Nat.eq_or_lt_of_le h1 with heq | hlt
    · subst heq
      simp [probeWhile, hk]
    · have ht : pings t = false := hfail t (Nat.le_refl t) hlt
      have hrec := ih (t + 1) k (by omega) (by omega) hk
        (fun j ha hb => hfail j (by omega) hb)
      simp only [probeWhile, ht, Bool.false_eq_true, if_false, hrec]
      refine congrArg _ ?_
      have : k + 1 - (t + 1) + 1 = k + 1 - t := by omega
      rw [this]
      refine congrArg _ ?_
      omega

/-- The loop breaks exactly when some probe in the window succeeds. -/
theorem probeWhile_success_iff (pings : Nat → Bool) :
    ∀ (fuel tries : Nat),
      (probeWhile pings tries fuel).1 = true ↔
        ∃ k, tries ≤ k ∧ k < tries + fuel ∧ pings k = true := by
  intro fuel
  induction fuel with
  | zero =>
    intro t
    simp only [probeWhile]
    constructor
    · intro h; exact absurd h (by simp)
    · rintro ⟨k, h1, h2, _⟩; omega
  | succ n ih =>
    intro t
    by_cases h : pings t
    · refine iff_of_true ?_ ⟨t, Nat.le_refl t, by omega, h⟩
      simp [probeWhile, h]
    · simp only [probeWhile, h, Bool.false_eq_true, if_false]
      rw [ih (t + 1)]
      constructor
      · rintro ⟨k, h1, h2, hk⟩; exact ⟨k, by omega, by omega, hk⟩
      · rintro ⟨k, h1, h2, hk⟩
        rcases Nat.eq_or_lt_of_le h1 with heq | hlt
        · subst heq; exact absurd hk (by simp [h])
        · exact ⟨k, by omega, by omega, hk⟩

/-- C8.  The CREATE probe loop (entered with `tries = 0`, guard
`tries < 5`): at most 5 pings are ever issued; the loop breaks exactly
when some of the first five probes succeeds; if the first success is at
attempt `k`, exactly `k + 1` pings are made (the loop exits at the first
success) with a 1-second sleep after each of the `k` preceding failures;
and in the worst case of five failures exactly 5 pings are made. -/
theorem c8_probe_loop (pings : Nat → Bool) :
    (probeKernel pings).2.1 ≤ 5 ∧
    ((probeKernel pings).1 = true ↔ ∃ k, k < 5 ∧ pings k = true) ∧
    (∀ k, k < 5 → pings k = true → (∀ j, j < k → pings j = false) →
      probeKernel pings = (true, k + 1, k)) ∧
    ((∀ j, j < 5 → pings j = false) → probeKernel pings = (false, 5, 5)) := by
  refine ⟨probeWhile_ping_le pings 5 0, ?_, ?_, ?_⟩
  · rw [probeKernel, probeWhile_success_iff pings 5 0]
    constructor
    · rintro ⟨k, _, h2, hk⟩; exact ⟨k, by omega, hk⟩
    · rintro ⟨k, h1, hk⟩; exact ⟨k, by omega, by omega, hk⟩
  · intro k h1 h2 h3
    have := probeWhile_first_success pings 5 0 k (by omega) (by omega) h2
      (fun j _ hb => h3 j hb)
    simpa [probeKernel] using this
  · intro h
    exact probeWhile_all_fail pings 5 0 (fun j h1 h2 => h j (by omega))

/-- Witness for C8: a probe stream succeeding first at attempt 2 breaks
the loop after 3 pings and 2 sleeps, and an all-failing stream makes
exactly 5 pings. -/
theorem c8_probe_loop_witness :
    probeKernel (fun i => decide (i = 2)) = (true, 3, 2) ∧
    probeKernel (fun _ => false) = (false, 5, 5) := by
  constructor
  · exact (c8_probe_loop (fun i => decide (i = 2))).2.2.1 2 (by omega) (by decide)
      (fun j hj => by simp only [decide_eq_false_iff_not]; omega)
  · exact (c8_probe_loop (fun _ => false)).2.2.2 (fun j _ => rfl)

/-- If no registry entry passes the filter, the placement loop falls
through to `return None` without touching any instance. -/
theorem findAvailAux_none_of_all_fail (ok : Instance → Bool) :
    ∀ (l : List (String × Instance)), (∀ e ∈ l, ok e.2 = false) →
      findAvailAux ok l = (none, l) := by
  intro l
  induction l with
  | nil => intro _; rfl
  | cons e rest ih =>
    intro h
    have he : ok e.2 = false := h e (List.mem_cons_self e rest)
    have hrec := ih (fun x hx => h x (List.mem_cons_of_mem e hx))
    simp [findAvailAux, he, hrec]

/-- C5.  When no instance passes the availability filter of the selected
driver (`cur_kernels < max_kernels`, with the local driver restricted to
loopback addresses), a CREATE request is answered with FAILURE, an empty
kernel id and the stable body text, the handler returns, and the module
state is exactly the pre-request state: no registry, port set or counter
is mutated. -/
theorem c5_create_no_instance (drv : KernelDriverTypes) (env : CreateEnv)
    (req : MRequest) (st : ManagerState) (hact : req.action = .CREATE)
    (h : ∀ e ∈ st.instance_registry, availFilter drv e.2 = false) :
    handleRequest drv env req st =
      .replyStop ⟨.FAILURE, "", "No instance is available to launch a new kernel."⟩ st := by
  have hfa : find_avail_instance drv st = (none, st) := by
    rw [find_avail_instance, findAvailAux_none_of_all_fail (availFilter drv) _ h]
  rw [handleRequest, hact, hfa]

/-- Witness for C5: the docker driver on a state whose only instance is
at capacity refuses the CREATE without mutating anything. -/
theorem c5_create_no_instance_witness :
    handleRequest .docker noPingEnv { action := .CREATE } fullState =
      .replyStop ⟨.FAILURE, "", "No instance is available to launch a new kernel."⟩
        fullState :=
  c5_create_no_instance .docker noPingEnv { action := .CREATE } fullState rfl
    (by decide)

/-- Characterization of the placement loop: a `none` result reconstructs
the list untouched with no entry passing the filter; a `some key` result
splits the list at the first entry passing the filter, which alone gets
its `cur_kernels` incremented. -/
theorem findAvailAux_spec (ok : Instance → Bool) :
    ∀ (l : List (String × Instance)),
      ((findAvailAux ok l).1 = none →
        (findAvailAux ok l).2 = l ∧ ∀ e ∈ l, ok e.2 = false) ∧
      (∀ key, (findAvailAux ok l).1 = some key →
        ∃ pre i post, l = pre ++ (key, i) :: post ∧
          (∀ e ∈ pre, ok e.2 = false) ∧ ok i = true ∧
          (findAvailAux ok l).2 =
            pre ++ (key, { i with cur_kernels := i.cur_kernels + 1 }) :: post) := by
  intro l
  induction l with
  | nil =>
    refine ⟨fun _ => ⟨rfl, by simp⟩, fun key h => ?_⟩
    simp [findAvailAux] at h
  | cons e rest ih =>
    obtain ⟨k, i⟩ := e
    by_cases hok : ok i
    · refine ⟨fun h => ?_, fun key h => ?_⟩
      · simp [findAvailAux, hok] at h
      · simp only [findAvailAux, hok, if_true] at h ⊢
        obtain rfl : k = key := by simpa using h
        exact ⟨[], i, rest, rfl, by simp, hok, rfl⟩
    · have hok' : ok i = false := by simpa using hok
      refine ⟨fun h => ?_, fun key h => ?_⟩
      · simp only [findAvailAux, hok', Bool.false_eq_true, if_false] at h ⊢
        obtain ⟨hl, hall⟩ := ih.1 h
        refine ⟨by rw [hl], ?_⟩
        intro x hx
        rcases List.mem_cons.mp hx with rfl | hx'
        · exact hok'
        · exact hall x hx'
      · simp only [findAvailAux, hok', Bool.false_eq_true, if_false] at h ⊢
        obtain ⟨pre, j, post, hsplit, hpre, hj, hupd⟩ := ih.2 key h
        refine ⟨(k, i) :: pre, j, post, by rw [hsplit]; rfl, ?_, hj,
          by rw [hupd]; rfl⟩
        intro x hx
        rcases List.mem_cons.mp hx with rfl | hx'
        · exact hok'
        · exact hpre x hx'

/-- C6.  `find_avail_instance` (both driver variants, differing only in
the availability filter) returns the first instance in registry iteration
order passing the filter, having incremented exactly that instance's
`cur_kernels`; when no instance qualifies it returns `none` and the state
is exactly the input state (nothing mutated). -/
theorem c6_find_avail_first_match (drv : KernelDriverTypes) (st : ManagerState)
    (key : String) (st' : ManagerState) :
    (find_avail_instance drv st = (none, st') →
      st' = st ∧ ∀ e ∈ st.instance_registry, availFilter drv e.2 = false) ∧
    (find_avail_instance drv st = (some key, st') →
      st'.kernel_registry = st.kernel_registry ∧
      ∃ pre i post, st.instance_registry = pre ++ (key, i) :: post ∧
        (∀ e ∈ pre, availFilter drv e.2 = false) ∧
        availFilter drv i = true ∧
        st'.instance_registry =
          pre ++ (key, { i with cur_kernels := i.cur_kernels + 1 }) :: post) := by
  constructor
  · intro h
    rw [find_avail_instance] at h
    obtain ⟨h1, h2⟩ := Prod.mk.injEq .. ▸ h
    obtain ⟨hl, hall⟩ := (findAvailAux_spec (availFilter drv) st.instance_registry).1 h1
    subst h2
    constructor
    · cases st
      simp only [ManagerState.mk.injEq]
      exact ⟨hl, trivial⟩
    · exact hall
  · intro h
    rw [find_avail_instance] at h
    obtain ⟨h1, h2⟩ := Prod.mk.injEq .. ▸ h
    obtain ⟨pre, i, post, hsplit, hpre, hi, hupd⟩ :=
      (findAvailAux_spec (availFilter drv) st.instance_registry).2 key h1
    subst h2
    exact ⟨rfl, pre, i, post, hsplit, hpre, hi, hupd⟩

/-- Witness for C6: on the startup state the local driver picks the sole
instance `test` (loopback, below capacity) and bumps its count to 1. -/
theorem c6_find_avail_first_match_witness :
    (({ instance_registry := [("test", { ip := "127.0.0.1", cur_kernels := 1 })],
        kernel_registry := [] } : ManagerState)).kernel_registry =
      initState.kernel_registry ∧
    ∃ pre i post, initState.instance_registry = pre ++ ("test", i) :: post ∧
      (∀ e ∈ pre, availFilter .localDriver e.2 = false) ∧
      availFilter .localDriver i = true ∧
      (({ instance_registry := [("test", { ip := "127.0.0.1", cur_kernels := 1 })],
          kernel_registry := [] } : ManagerState)).instance_registry =
        pre ++ ("test", { i with cur_kernels := i.cur_kernels + 1 }) :: post :=
  (c6_find_avail_first_match .localDriver initState "test"
      { instance_registry := [("test", { ip := "127.0.0.1", cur_kernels := 1 })],
        kernel_registry := [] }).2 (by decide)

/-- `d[k] = v` followed by `d[k]` yields `v`. -/
theorem dlookup_dinsert_self {α : Type} :
    ∀ (m : List (String × α)) (k : String) (v : α),
      dlookup (dinsert m k v) k = some v := by
  intro m
  induction m with
  | nil => intro k v; simp [dinsert, dlookup]
  | cons e rest ih =>
    intro k v
    obtain ⟨k0, w⟩ := e
    by_cases hk : k0 = k
    · simp [dinsert, dlookup, hk]
    · simp [dinsert, dlookup, hk, ih]

/-- When the reservation loop finds a port (nonzero result), that port is
the smallest free one of the scanned range, and it has just been added to
the occupied set. -/
theorem pickPortLoop_found :
    ∀ (l used : List Nat), l.Pairwise (· < ·) →
      ∀ p used', pickPortLoop l used = (p, used') → p ≠ 0 →
        p ∈ l ∧ used.contains p = false ∧
        (∀ q ∈ l, used.contains q = false → p ≤ q) ∧ used' = p :: used := by
  intro l
  induction l with
  | nil =>
    intro used _ p used' h hp
    obtain ⟨h1, _⟩ := Prod.mk.injEq .. ▸ h.symm
    exact absurd h1 hp
  | cons a l ih =>
    intro used hpw p used' h hp
    by_cases hc : used.contains a
    · rw [pickPortLoop, if_pos hc] at h
      obtain ⟨hmem, hfree, hmin, hused⟩ := ih used (List.Pairwise.of_cons hpw) p used' h hp
      refine ⟨List.mem_cons_of_mem a hmem, hfree, ?_, hused⟩
      intro q hq hqf
      rcases List.mem_cons.mp hq with rfl | hq'
      · rw [hc] at hqf; cases hqf
      · exact hmin q hq' hqf
    · rw [pickPortLoop, if_neg hc] at h
      obtain ⟨h1, h2⟩ := Prod.mk.injEq .. ▸ h.symm
      subst h1; subst h2
      refine ⟨List.mem_cons_self p l, by simpa using hc, ?_, rfl⟩
      intro q hq _
      rcases List.mem_cons.mp hq with rfl | hq'
      · exact Nat.le_refl q
      · exact Nat.le_of_lt (List.rel_of_pairwise_cons hpw hq')

/-- When the reservation loop finds no port (result 0, for a range not
containing 0), every port of the range is already occupied. -/
theorem pickPortLoop_exhausted :
    ∀ (l used : List Nat), (pickPortLoop l used).1 = 0 → (∀ x ∈ l, x ≠ 0) →
      ∀ q ∈ l, used.contains q = true := by
  intro l
  induction l with
  | nil => intro used _ _ q hq; cases hq
  | cons a l ih =>
    intro used h h0 q hq
    by_cases hc : used.contains a
    · rw [pickPortLoop, if_pos hc] at h
      rcases List.mem_cons.mp hq with rfl | hq'
      · exact hc
      · exact ih used h (fun x hx => h0 x (List.mem_cons_of_mem a hx)) q hq'
    · rw [pickPortLoop, if_neg hc] at h
      exact absurd h (h0 a (List.mem_cons_self a l))

/-- Pigeonhole for the reservation: fewer occupied ports than the size of
the range guarantees the loop reserves some port. -/
theorem pickPort_of_length_lt (ups : List Nat) (h : ups.length < 8) :
    (pickPortLoop AgentPortRange ups).1 ≠ 0 := by
  intro h0
  have hall : ∀ q ∈ AgentPortRange, ups.contains q = true :=
    pickPortLoop_exhausted AgentPortRange ups h0 (by decide)
  have hsub : AgentPortRange ⊆ ups := by
    intro q hq
    have := hall q hq
    simpa [List.contains] using this
  have hnodup : AgentPortRange.Nodup := List.nodup_range' 5002 8
  have hlen : AgentPortRange.length ≤ ups.length := (hnodup.subperm hsub).length_le
  have : AgentPortRange.length = 8 := by decide
  omega

/-- C7.  Port reservation in `create_kernel`: (1) a successful reservation
takes the smallest port of `AgentPortRange` not yet occupied and adds it
to the occupied set; (2) the docker variant's assertion
`max_kernels <= len(AgentPortRange)` admits `max_kernels = 8`, so with the
expected `|occupied| = max - 1` it still places the `max`-th kernel (the
record is written; the subsequent `NameError` is the unrelated C3 defect);
(3) the local variant's strict assertion `max_kernels < len(AgentPortRange)`
refuses `max_kernels = 8` before touching the kernel registry; (4) under
the precondition `|occupied| = cur - 1`, `cur ≤ max`, `max ≤ 8` a free
port always exists, so the `assert agent_port != 0` failure branch is
unreachable. -/
theorem c7_port_reservation :
    (∀ (used : List Nat) (p : Nat) (used' : List Nat),
      pickPortLoop AgentPortRange used = (p, used') → p ≠ 0 →
        p ∈ AgentPortRange ∧ used.contains p = false ∧
        (∀ q ∈ AgentPortRange, used.contains q = false → p ≤ q) ∧
        used' = p :: used) ∧
    (∀ (st : ManagerState) (key cid : String) (i : Instance),
      dlookup st.instance_registry key = some i →
      i.max_kernels = (AgentPortRange.length : Int) →
      ((i.used_ports.getD []).length : Int) = i.max_kernels - 1 →
      ∃ st2 k, dockerCreate_kernel key cid st = .exn (.nameError "kernel_id") st2 ∧
        dlookup st2.kernel_registry ("docker-" ++ i.ip ++ "/" ++ cid) = some k) ∧
    (∀ (st : ManagerState) (key uid : String) (i : Instance),
      dlookup st.instance_registry key = some i →
      i.max_kernels = (AgentPortRange.length : Int) →
      ∃ st', localCreate_kernel key uid st = .exn .assertionError st' ∧
        st'.kernel_registry = st.kernel_registry) ∧
    (∀ (ups : List Nat) (cur mx : Int),
      (ups.length : Int) = cur - 1 → cur ≤ mx → mx ≤ (AgentPortRange.length : Int) →
      (pickPortLoop AgentPortRange ups).1 ≠ 0) := by
  have hlen8 : (AgentPortRange.length : Int) = 8 := by decide
  have hfree : ∀ (ups : List Nat) (cur mx : Int),
      (ups.length : Int) = cur - 1 → cur ≤ mx → mx ≤ (AgentPortRange.length : Int) →
      (pickPortLoop AgentPortRange ups).1 ≠ 0 := by
    intro ups cur mx h1 h2 h3
    refine pickPort_of_length_lt ups ?_
    rw [hlen8] at h3
    omega
  refine ⟨?_, ?_, ?_, hfree⟩
  · intro used p used' h hp
    exact pickPortLoop_found AgentPortRange used (List.pairwise_lt_range' 5002 8) p used' h hp
  · intro st key cid i hk hmax hups
    have hnz : (pickPortLoop AgentPortRange (i.used_ports.getD [])).1 ≠ 0 :=
      hfree (i.used_ports.getD []) i.max_kernels i.max_kernels hups (le_refl _) (le_of_eq hmax)
    rw [dockerCreate_kernel, hk]
    simp only [if_pos (le_of_eq hmax), if_pos hnz]
    exact ⟨_, _, rfl, dlookup_dinsert_self _ _ _⟩
  · intro st key uid i hk hmax
    rw [localCreate_kernel, hk]
    simp only [hmax, lt_irrefl, if_false]
    exact ⟨_, rfl, rfl⟩

/-- Witness for C7: with port 5002 occupied the loop reserves 5003 (the
smallest free port); on `cap8State` (max 8 = range size, 7 ports taken)
the docker variant still writes the kernel record while the local variant
refuses by assertion; and an empty occupied set always yields a port. -/
theorem c7_port_reservation_witness :
    (5003 ∈ AgentPortRange ∧ (([5002] : List Nat).contains 5003) = false ∧
      (∀ q ∈ AgentPortRange, (([5002] : List Nat).contains q) = false → 5003 ≤ q) ∧
      ([5003, 5002] : List Nat) = 5003 :: [5002]) ∧
    (∃ st2 k, dockerCreate_kernel "test" "c0" cap8State =
        .exn (.nameError "kernel_id") st2 ∧
      dlookup st2.kernel_registry ("docker-" ++ "127.0.0.1" ++ "/" ++ "c0") = some k) ∧
    (∃ st', localCreate_kernel "test" "u0" cap8State = .exn .assertionError st' ∧
      st'.kernel_registry = cap8State.kernel_registry) ∧
    (pickPortLoop AgentPortRange []).1 ≠ 0 :=
  ⟨c7_port_reservation.1 [5002] 5003 [5003, 5002] (by decide) (by decide),
   c7_port_reservation.2.1 cap8State "test" "c0"
      { ip := "127.0.0.1", max_kernels := 8, cur_kernels := 8,
        used_ports := some [5002, 5003, 5004, 5005, 5006, 5007, 5008] }
      (by decide) (by decide) (by decide),
   c7_port_reservation.2.2.1 cap8State "test" "u0"
      { ip := "127.0.0.1", max_kernels := 8, cur_kernels := 8,
        used_ports := some [5002, 5003, 5004, 5005, 5006, 5007, 5008] }
      (by decide) (by decide),
   c7_port_reservation.2.2.2 [] 1 2 (by decide) (by decide) (by decide)⟩

/-- Membership after a dictionary assignment: an entry of `d[k] = v` is
either the new binding or an entry of the original dictionary. -/
theorem mem_dinsert {α : Type} :
    ∀ (m : List (String × α)) (k : String) (v : α) (e : String × α),
      e ∈ dinsert m k v → e = (k, v) ∨ e ∈ m := by
  intro m
  induction m with
  | nil =>
    intro k v e he
    simp [dinsert] at he
    exact Or.inl he
  | cons e0 rest ih =>
    intro k v e he
    obtain ⟨k0, w⟩ := e0
    by_cases hk : k0 = k
    · rw [dinsert, if_pos hk] at he
      rcases List.mem_cons.mp he with rfl | hm
      · exact Or.inl (by rw [hk])
      · exact Or.inr (List.mem_cons_of_mem _ hm)
    · rw [dinsert, if_neg hk] at he
      rcases List.mem_cons.mp he with rfl | hm
      · exact Or.inr (List.mem_cons_self _ _)
      · rcases ih k v e hm with h1 | h2
        · exact Or.inl h1
        · exact Or.inr (List.mem_cons_of_mem _ h2)

/-- Membership after a dictionary deletion: every remaining entry was
already present. -/
theorem mem_derase {α : Type} :
    ∀ (m : List (String × α)) (k : String) (e : String × α),
      e ∈ derase m k → e ∈ m := by
  intro m
  induction m with
  | nil => intro k e he; cases he
  | cons e0 rest ih =>
    intro k e he
    obtain ⟨k0, w⟩ := e0
    by_cases hk : k0 = k
    · rw [derase, if_pos hk] at he
      exact List.mem_cons_of_mem _ he
    · rw [derase, if_neg hk] at he
      rcases List.mem_cons.mp he with rfl | hm
      · exact List.mem_cons_self _ _
      · exact List.mem_cons_of_mem _ (ih k e hm)

/-- `create_kernel` of either driver preserves the registry keying
invariant, whether it returns or raises: the only registry write is the
insertion of the new record under its own `kernel_id`. -/
theorem keysMatch_create (drv : KernelDriverTypes) (key fid : String)
    (st : ManagerState) (h : KeysMatch st) :
    KeysMatch (create_kernel drv key fid st).state := by
  cases drv with
  | docker =>
    rw [create_kernel]
    rcases hdl : dlookup st.instance_registry key with _ | i
    · rw [dockerCreate_kernel, hdl]; exact h
    · rw [dockerCreate_kernel, hdl]
      simp only []
      split
      · split
        · intro e he
          simp only [PyResult.state] at he
          rcases mem_dinsert _ _ _ e he with rfl | hm
          · rfl
          · exact h e hm
        · intro e he; exact h e he
      · intro e he; exact h e he
  | localDriver =>
    rw [create_kernel]
    rcases hdl : dlookup st.instance_registry key with _ | i
    · rw [localCreate_kernel, hdl]; exact h
    · rw [localCreate_kernel, hdl]
      simp only []
      split
      · split
        · intro e he
          simp only [PyResult.state] at he
          rcases mem_dinsert _ _ _ e he with rfl | hm
          · rfl
          · exact h e hm
        · intro e he; exact h e he
      · intro e he; exact h e he

/-- The shared `destroy_kernel` body preserves the registry keying
invariant in every branch: the only registry write is the deletion. -/
theorem keysMatch_destroyBody (kid : String) (st : ManagerState)
    (h : KeysMatch st) : KeysMatch (destroyKernelBody kid st).state := by
  rw [destroyKernelBody]
  split
  · exact h
  · split
    · exact h
    · simp only []
      split
      · split
        · intro e he; exact h e he
        · split
          · intro e he; exact h e he
          · split
            · intro e he
              simp only [PyResult.state] at he
              exact h e (mem_derase _ _ e he)
            · intro e he; exact h e he
      · intro e he; exact h e he

/-- The final state of `destroy_kernel` coincides with that of its shared
body for both drivers (the docker variant only adds the trailing raise). -/
theorem destroy_kernel_state (drv : KernelDriverTypes) (kid : String)
    (st : ManagerState) :
    (destroy_kernel drv kid st).state = (destroyKernelBody kid st).state := by
  cases drv with
  | localDriver => rfl
  | docker =>
    rw [destroy_kernel]
    rcases hb : destroyKernelBody kid st with ⟨a, s⟩ | ⟨e, s⟩ <;> rfl

/-- C9.  The kernel registry maps every key to a record whose `kernel_id`
field equals that key: both `create_kernel` variants establish this at
their insertion (the record is stored under its own `kernel_id`), and
both `destroy_kernel` variants preserve it through their deletion —
regardless of whether the operation returns normally or raises. -/
theorem c9_registry_keys_invariant (drv : KernelDriverTypes)
    (key fid kid : String) (st : ManagerState) (h : KeysMatch st) :
    KeysMatch (create_kernel drv key fid st).state ∧
    KeysMatch (destroy_kernel drv kid st).state := by
  refine ⟨keysMatch_create drv key fid st h, ?_⟩
  rw [destroy_kernel_state]
  exact keysMatch_destroyBody kid st h

/-- Witness for C9: on a state holding one correctly-keyed kernel, both a
further create and the destroy of `local/u0` keep the invariant. -/
theorem c9_registry_keys_invariant_witness :
    KeysMatch (create_kernel .localDriver "test" "u1" localOneState).state ∧
    KeysMatch (destroy_kernel .localDriver "local/u0" localOneState).state :=
  c9_registry_keys_invariant .localDriver "test" "u1" "local/u0" localOneState
    (by intro e he; simp only [localOneState] at he; rcases List.mem_singleton.mp he with rfl; rfl)

/-- C10.  If `handle_api` answers a CREATE request with a written response
followed by `return` (the `replyStop` outcome), then that response is one
of the two FAILURE replies (no instance available, or probe timeout), and
the `while True` loop ends there: whatever requests are still queued are
never read and never answered. -/
theorem c10_create_failure_ends_loop (drv : KernelDriverTypes)
    (envs : Nat → CreateEnv) (req : MRequest) (rest : List MRequest)
    (st : ManagerState) (resp : MResponse) (st' : ManagerState)
    (hact : req.action = .CREATE)
    (h : handleRequest drv (envs 0) req st = .replyStop resp st') :
    resp.reply = .FAILURE ∧ resp.kernel_id = "" ∧
    (resp.body = "No instance is available to launch a new kernel." ∨
     resp.body = "The created kernel did not respond!") ∧
    handleApi drv envs 0 (req :: rest) st = ([resp], st') := by
  have hapi : handleApi drv envs 0 (req :: rest) st = ([resp], st') := by
    rw [handleApi, h]
  simp only [handleRequest, hact] at h
  rcases hfa : find_avail_instance drv st with ⟨o, st1⟩
  simp only [hfa] at h
  cases o with
  | none =>
    injection h with h1 h2
    subst h1
    exact ⟨rfl, rfl, Or.inl rfl, hapi⟩
  | some instKey =>
    rcases hck : create_kernel drv instKey (envs 0).freshId st1 with ⟨kid, st2⟩ | ⟨e2, st2⟩
    · simp only [hck] at h
      split at h
      · split at h
        · exact StepOutcome.noConfusion h
        · split at h
          · exact StepOutcome.noConfusion h
          · exact StepOutcome.noConfusion h
      · injection h with h1 h2
        subst h1
        exact ⟨rfl, rfl, Or.inr rfl, hapi⟩
    · simp only [hck] at h
      exact StepOutcome.noConfusion h

/-- Witness for C10: replaying the concrete probe-timeout scenario of C1
followed by a queued PING shows the PING is never answered. -/
theorem c10_create_failure_ends_loop_witness :
    (⟨.FAILURE, "", "The created kernel did not respond!"⟩ : MResponse).reply = .FAILURE ∧
    (⟨.FAILURE, "", "The created kernel did not respond!"⟩ : MResponse).kernel_id = "" ∧
    ((⟨.FAILURE, "", "The created kernel did not respond!"⟩ : MResponse).body =
        "No instance is available to launch a new kernel." ∨
     (⟨.FAILURE, "", "The created kernel did not respond!"⟩ : MResponse).body =
        "The created kernel did not respond!") ∧
    handleApi .localDriver (fun _ => noPingEnv) 0
        [{ action := .CREATE }, { action := .PING, body := "hello" }] initState =
      ([⟨.FAILURE, "", "The created kernel did not respond!"⟩], leakedState) :=
  c10_create_failure_ends_loop .localDriver (fun _ => noPingEnv)
    { action := .CREATE } [{ action := .PING, body := "hello" }] initState
    ⟨.FAILURE, "", "The created kernel did not respond!"⟩ leakedState rfl (by decide)
